import Mathlib

/-!
Verification of the `CloudflareSocket` transport adapter
(`src/pg-cloudflare.ts`): a `Duplex`-based wrapper around the Cloudflare
socket capability.  The adapter's private fields (`#cfSocket`, `#cfReader`,
`#cfWriter`, `#upgrading`, `#upgraded`) become a state record; each hook or
method (`destroy`, `read`, `write`, `connect`, `startTls`, the handler
attached by `_addClosedHandler`) becomes a function from state and the
outcome of the asynchronous transport interaction to a new state and an
ordered list of primitive actions, translated line by line from the source.
-/

namespace PgCloudflare

/-- The adapter's mutable private fields.  Transport handles, readers and
writers are identified by `Nat` ids; `none` models a `null` reference. -/
structure CFState where
  cfSocket : Option Nat
  cfReader : Option Nat
  cfWriter : Option Nat
  upgrading : Bool
  upgraded : Bool
deriving Repr, DecidableEq

/-- Primitive observable actions the adapter performs, in program order:
notifications emitted to the client library (`emitConnect`, `emitError`,
`pushData`, `pushNull`, `emitClose`), interactions with the platform socket
(`openRequest`, `closeRequest`, `startTlsRequest`, `acquireWriter`,
`acquireReader`, `releaseWriterLock`, `releaseReaderLock`, `openedAwait`,
`attachClosedHandler`, `writerWrite`, `issueRead`), internal calls
(`clearRefs`, `destroyCall`) and operation callbacks (`writeCallback`,
`destroyCallback`). -/
inductive Action where
  | emitConnect
  | emitError (msg : String)
  | pushData (chunk : List Nat)
  | pushNull
  | emitClose
  | openRequest (secure : Bool)
  | closeRequest
  | startTlsRequest
  | acquireWriter
  | acquireReader
  | releaseWriterLock
  | releaseReaderLock
  | openedAwait
  | attachClosedHandler
  | writerWrite (chunk : List Nat)
  | issueRead
  | clearRefs
  | destroyCall (err : Option String)
  | writeCallback (err : Option String)
  | destroyCallback (err : Option String)
deriving Repr, DecidableEq

/-- Outcome of the platform socket's `close()` promise. -/
inductive CloseOutcome where
  | resolves
  | rejects (e : String)
deriving Repr, DecidableEq

/-- The `destroy` hook installed in the `Duplex` constructor options
(src/pg-cloudflare.ts lines 35-47): if `#cfSocket` is `null` the callback is
invoked immediately with the trigger error; otherwise `close()` is requested
and the callback receives the trigger error when close resolves, or the
rejection error when close rejects. -/
def destroyHook (s : CFState) (err : Option String) (co : CloseOutcome) :
    List Action :=
  match s.cfSocket with
  | none => [.destroyCallback err]
  | some _ =>
    match co with
    | .resolves => [.closeRequest, .destroyCallback err]
    | .rejects e => [.closeRequest, .destroyCallback (some e)]

/-- `node:stream` contract (external collaborator): once the destroy hook's
callback fires with `err`, the `Duplex` emits an `error` notification when
`err` is present and then a single terminal `close` notification. -/
def duplexDestroyNotifs (err : Option String) : List Action :=
  match err with
  | none => [.emitClose]
  | some e => [.emitError e, .emitClose]

/-- Outcome of a single `#cfReader.read()` promise. -/
inductive ReadOutcome where
  | data (chunk : List Nat)
  | done
  | error (e : String)
deriving Repr, DecidableEq

/-- The `read` hook installed in the `Duplex` constructor options
(src/pg-cloudflare.ts lines 48-71): one `read()` is issued; if it settles
`done` the socket/reader/writer references are reset *before* `push(null)`;
if it yields data the chunk is pushed; if it rejects the adapter is
destroyed with that error. -/
def readHookActions (o : ReadOutcome) : List Action :=
  .issueRead ::
    match o with
    | .done => [.clearRefs, .pushNull]
    | .data c => [.pushData c]
    | .error e => [.destroyCall (some e)]

/-- State effect of one action (only `clearRefs` and the ref-setting
transport interactions mutate the private fields; flags are only touched by
`startTls` and the closed handler, which are modelled separately). -/
def applyAction (s : CFState) : Action → CFState
  | .clearRefs => { s with cfSocket := none, cfReader := none, cfWriter := none }
  | _ => s

/-- State after the `read` hook's handler for outcome `o` has run. -/
def runReadHook (s : CFState) (o : ReadOutcome) : CFState :=
  (readHookActions o).foldl applyAction s

/-- Outcome of a `#cfWriter.write(data)` promise. -/
inductive WriterOutcome where
  | resolves
  | rejects (e : String)
deriving Repr, DecidableEq

/-- The `write` hook installed in the `Duplex` constructor options
(src/pg-cloudflare.ts lines 72-86): a zero-length chunk invokes the
completion callback at once with no writer interaction; otherwise the chunk
goes to `#cfWriter.write` and the callback reports its resolution or its
rejection error. -/
def writeHookActions (data : List Nat) (o : WriterOutcome) : List Action :=
  if data.length = 0 then [.writeCallback none]
  else
    .writerWrite data ::
      match o with
      | .resolves => [.writeCallback none]
      | .rejects e => [.writeCallback (some e)]

/-- The handler `_addClosedHandler` attaches to `#cfSocket.closed`
(src/pg-cloudflare.ts lines 168-185).  Returns the new state and whether
`this.destroy()` was invoked: with `#upgrading` false the references are
forgotten and destroy is called; with `#upgrading` true the flags flip to
the post-upgrade configuration and nothing else happens. -/
def closedHandler (s : CFState) : CFState × Bool :=
  if !s.upgrading then
    ({ s with cfSocket := none, cfReader := none, cfWriter := none }, true)
  else
    ({ s with upgrading := false, upgraded := true }, false)

/-- Full effect of the closed-signal resolving: run `closedHandler`; when it
invoked `this.destroy()` (no trigger error), run the destroy hook on the
updated state and append the `Duplex` destroy notifications. -/
def closedResolvedStep (s : CFState) (co : CloseOutcome) :
    CFState × List Action :=
  let r := closedHandler s
  if r.2 then
    let acts := destroyHook r.1 none co
    (r.1, acts ++ duplexDestroyNotifs (destroyCbErr r.1 none co))
  else
    (r.1, [])
where
  /-- The error the destroy hook's callback receives. -/
  destroyCbErr (s : CFState) (err : Option String) (co : CloseOutcome) :
      Option String :=
    match s.cfSocket with
    | none => err
    | some _ =>
      match co with
      | .resolves => err
      | .rejects e => some e

/-- `startTls` (src/pg-cloudflare.ts lines 151-166).  Guarded only by
`#upgraded`: when set, it emits an error and returns with no mutation.
Otherwise it sets `#upgrading`, releases both locks, replaces the socket by
the handle `newSock` returned from the platform's `startTls`, acquires a
fresh writer and reader, and re-attaches the closed handler.  `Except.error`
models the `TypeError` thrown by `this.#cfSocket!` when no socket is active;
its payload is the state at the throw point, where `#upgrading` has already
been set. -/
def startTlsOp (s : CFState) (newSock : Nat) :
    Except CFState (CFState × List Action) :=
  if s.upgraded then
    .ok (s, [.emitError "Cannot call `startTls()` more than once on a socket"])
  else
    match s.cfSocket with
    | none => .error { s with upgrading := true }
    | some _ =>
      .ok
        ({ s with
            upgrading := true
            cfSocket := some newSock
            cfWriter := some newSock
            cfReader := some newSock },
          [.releaseWriterLock, .releaseReaderLock, .startTlsRequest,
            .acquireWriter, .acquireReader, .attachClosedHandler])

/-- Where the `try` block of `connect` (src/pg-cloudflare.ts lines 123-149)
stops: each asynchronous or throwing step may fail, in which case the
`catch` emits an error notification; otherwise `await this.#cfSocket.opened`
resolves and the `connect` notification is emitted. -/
inductive ConnectOutcome where
  | ok
  | failConnect (e : String)
  | failGetWriter (e : String)
  | failGetReader (e : String)
  | failOpened (e : String)
deriving Repr, DecidableEq

/-- Ordered action trace of `connect(port, hostname)`: never throws (the
whole body is inside `try`/`catch`); the `connect` notification appears only
in the `ok` trace, strictly after the `openedAwait` suspension point. -/
def connectTrace (ssl : Bool) (o : ConnectOutcome) : List Action :=
  match o with
  | .failConnect e => [.openRequest ssl, .emitError e]
  | .failGetWriter e =>
    [.openRequest ssl, .attachClosedHandler, .emitError e]
  | .failGetReader e =>
    [.openRequest ssl, .attachClosedHandler, .acquireWriter, .emitError e]
  | .failOpened e =>
    [.openRequest ssl, .attachClosedHandler, .acquireWriter, .acquireReader,
      .openedAwait, .emitError e]
  | .ok =>
    [.openRequest ssl, .attachClosedHandler, .acquireWriter, .acquireReader,
      .openedAwait, .emitConnect]

/-- State after `connect` with a freshly opened handle `newSock`: the fields
assigned before the failing step keep their new values; the flags are never
touched. -/
def connectStateAfter (s : CFState) (newSock : Nat) (o : ConnectOutcome) :
    CFState :=
  match o with
  | .failConnect _ => s
  | .failGetWriter _ => { s with cfSocket := some newSock }
  | .failGetReader _ =>
    { s with cfSocket := some newSock, cfWriter := some newSock }
  | .failOpened _ =>
    { s with
        cfSocket := some newSock
        cfWriter := some newSock
        cfReader := some newSock }
  | .ok =>
    { s with
        cfSocket := some newSock
        cfWriter := some newSock
        cfReader := some newSock }

/-- Read-pump event skeleton: a read is issued, then its promise settles. -/
inductive PumpEvent where
  | issue
  | settle
deriving Repr, DecidableEq

/-- Demand-driven read pump: the `Duplex` pull contract invokes the `read`
hook only after the previous read's `.then` handler has pushed, so each
outcome contributes `issue` followed by `settle`; after `done` or an error
no further read is ever issued (the stream ended or was destroyed).  The
consumer's demand can only delay the next `issue`, never add one. -/
def pumpTrace : List ReadOutcome → List PumpEvent
  | [] => []
  | o :: rest =>
    .issue :: .settle ::
      match o with
      | .data _ => pumpTrace rest
      | .done => []
      | .error _ => []

/-- Number of reads in flight after a sequence of pump events. -/
def countEv (e : PumpEvent) (l : List PumpEvent) : Nat := l.count e

/-- Is the action an `error` or `close` notification to the client library? -/
def isErrOrClose : Action → Bool
  | .emitError _ => true
  | .emitClose => true
  | _ => false

/-- Is the action an `error` notification to the client library? -/
def isErrorNotif : Action → Bool
  | .emitError _ => true
  | _ => false

/-- Is the action an invocation of the adapter's own `destroy`? -/
def isDestroyCall : Action → Bool
  | .destroyCall _ => true
  | _ => false

/-- Is the action a `close()` request on the platform socket? -/
def isCloseRequest : Action → Bool
  | .closeRequest => true
  | _ => false

/-- C1: when the closed-signal resolves while `upgrading` is true, the
handler clears `upgrading`, sets `upgraded`, keeps the socket/reader/writer
references untouched, and performs no action at all — in particular no error
or close notification. -/
theorem closedSignal_during_upgrade_nondestructive (s : CFState)
    (co : CloseOutcome) (h : s.upgrading = true) :
    (closedResolvedStep s co).1.cfSocket = s.cfSocket ∧
    (closedResolvedStep s co).1.cfReader = s.cfReader ∧
    (closedResolvedStep s co).1.cfWriter = s.cfWriter ∧
    (closedResolvedStep s co).1.upgrading = false ∧
    (closedResolvedStep s co).1.upgraded = true ∧
    (closedResolvedStep s co).2 = [] := by
  simp [closedResolvedStep, closedHandler, h]

/-- Witness for C1 at a concrete mid-upgrade state. -/
theorem closedSignal_during_upgrade_nondestructive_witness :
    (closedResolvedStep ⟨some 0, some 1, some 2, true, false⟩
        CloseOutcome.resolves).1.upgraded = true ∧
    (closedResolvedStep ⟨some 0, some 1, some 2, true, false⟩
        CloseOutcome.resolves).2 = [] :=
  ⟨(closedSignal_during_upgrade_nondestructive ⟨some 0, some 1, some 2, true,
      false⟩ CloseOutcome.resolves rfl).2.2.2.2.1,
    (closedSignal_during_upgrade_nondestructive ⟨some 0, some 1, some 2, true,
      false⟩ CloseOutcome.resolves rfl).2.2.2.2.2⟩

/-- C2: when the closed-signal resolves while `upgrading` is false, the
handler nulls the transport/reader/writer references and invokes `destroy`,
which (finding no socket) fires its callback at once; exactly one
error/close notification — the terminal `close` — is emitted. -/
theorem closedSignal_unexpected_close_destroys (s : CFState)
    (co : CloseOutcome) (h : s.upgrading = false) :
    (closedResolvedStep s co).1.cfSocket = none ∧
    (closedResolvedStep s co).1.cfReader = none ∧
    (closedResolvedStep s co).1.cfWriter = none ∧
    (closedHandler s).2 = true ∧
    (closedResolvedStep s co).2 = [.destroyCallback none, .emitClose] ∧
    ((closedResolvedStep s co).2.filter isErrOrClose).length = 1 := by
  simp [closedResolvedStep, closedHandler, closedResolvedStep.destroyCbErr,
    destroyHook, duplexDestroyNotifs, h, isErrOrClose]

/-- Witness for C2 at a concrete non-upgrading state. -/
theorem closedSignal_unexpected_close_destroys_witness :
    (closedResolvedStep ⟨some 3, some 4, some 5, false, false⟩
        CloseOutcome.resolves).1.cfSocket = none ∧
    ((closedResolvedStep ⟨some 3, some 4, some 5, false, false⟩
        CloseOutcome.resolves).2.filter isErrOrClose).length = 1 :=
  ⟨(closedSignal_unexpected_close_destroys ⟨some 3, some 4, some 5, false,
      false⟩ CloseOutcome.resolves rfl).1,
    (closedSignal_unexpected_close_destroys ⟨some 3, some 4, some 5, false,
      false⟩ CloseOutcome.resolves rfl).2.2.2.2.2⟩

/-- C3 counterexample: in the state `upgrading = true`, `upgraded = false`
(mid-upgrade), `startTls` does NOT emit an error and DOES change state: the
guard at src/pg-cloudflare.ts line 152 tests only `#upgraded`, so the call
proceeds with a second upgrade, replacing the socket/reader/writer. -/
theorem startTls_mid_upgrade_not_guarded :
    startTlsOp ⟨some 0, some 0, some 0, true, false⟩ 1 =
      .ok (⟨some 1, some 1, some 1, true, false⟩,
        [.releaseWriterLock, .releaseReaderLock, .startTlsRequest,
          .acquireWriter, .acquireReader, .attachClosedHandler]) ∧
    (⟨some 1, some 1, some 1, true, false⟩ : CFState) ≠
      ⟨some 0, some 0, some 0, true, false⟩ ∧
    ([Action.releaseWriterLock, .releaseReaderLock, .startTlsRequest,
        .acquireWriter, .acquireReader,
        .attachClosedHandler].filter isErrorNotif) = [] :=
  ⟨rfl, by decide, rfl⟩

/-- C3 amended: `startTls` is guarded only by `upgraded`; whenever
`upgraded` is still false and a socket is active — `upgrading` may well be
true — the call proceeds with the upgrade: it sets `upgrading`, releases
both locks, swaps in the replacement socket with fresh writer/reader, and
re-attaches the closed handler, emitting no error notification. -/
theorem startTls_guard_only_on_upgraded (s : CFState) (newSock sock : Nat)
    (hu : s.upgraded = false) (hs : s.cfSocket = some sock) :
    startTlsOp s newSock =
      .ok ({ s with
              upgrading := true
              cfSocket := some newSock
              cfWriter := some newSock
              cfReader := some newSock },
        [.releaseWriterLock, .releaseReaderLock, .startTlsRequest,
          .acquireWriter, .acquireReader, .attachClosedHandler]) := by
  simp [startTlsOp, hu, hs]

/-- Witness for the amended C3 at a concrete mid-upgrade state. -/
theorem startTls_guard_only_on_upgraded_witness :
    startTlsOp ⟨some 0, some 0, some 0, true, false⟩ 1 =
      .ok (⟨some 1, some 1, some 1, true, false⟩,
        [.releaseWriterLock, .releaseReaderLock, .startTlsRequest,
          .acquireWriter, .acquireReader, .attachClosedHandler]) :=
  startTls_guard_only_on_upgraded ⟨some 0, some 0, some 0, true, false⟩ 1 0
    rfl rfl

/-- C4: `upgraded` is monotonic across every state-changing operation
(`startTls` in all three branches, the closed-signal handler, the read hook,
and `connect`); moreover a `startTls` call on an adapter with
`upgraded = true` returns the state unchanged and emits only the error
notification. -/
theorem upgraded_monotonic :
    (∀ s n r, startTlsOp s n = .ok r → s.upgraded = true →
      r.1 = s ∧
        r.2 = [.emitError
          "Cannot call `startTls()` more than once on a socket"]) ∧
    (∀ s n t, startTlsOp s n = .error t → s.upgraded = true →
      t.upgraded = true) ∧
    (∀ s co, s.upgraded = true →
      (closedResolvedStep s co).1.upgraded = true) ∧
    (∀ s o, s.upgraded = true → (runReadHook s o).upgraded = true) ∧
    (∀ s n o, s.upgraded = true →
      (connectStateAfter s n o).upgraded = true) := by
  refine ⟨?_, ?_, ?_, ?_, ?_⟩
  · intro s n r h hu
    simp [startTlsOp, hu] at h
    subst h
    exact ⟨rfl, rfl⟩
  · intro s n t h hu
    simp [startTlsOp, hu] at h
  · intro s co hu
    rcases hb : s.upgrading <;>
      simp [closedResolvedStep, closedHandler, hb, hu]
  · intro s o hu
    cases o <;> simp [runReadHook, readHookActions, applyAction, hu]
  · intro s n o hu
    cases o <;> simp [connectStateAfter, hu]

/-- Witness for C4: a second `startTls` on an already-upgraded adapter
leaves the state unchanged, and the closed handler keeps `upgraded`. -/
theorem upgraded_monotonic_witness :
    ((⟨some 9, some 9, some 9, false, true⟩ : CFState),
        ([.emitError "Cannot call `startTls()` more than once on a socket"] :
          List Action)).1 = (⟨some 9, some 9, some 9, false, true⟩ : CFState) ∧
    (closedResolvedStep ⟨some 9, some 9, some 9, false, true⟩
        CloseOutcome.resolves).1.upgraded = true :=
  ⟨(upgraded_monotonic.1 ⟨some 9, some 9, some 9, false, true⟩ 5
      (⟨some 9, some 9, some 9, false, true⟩,
        [.emitError "Cannot call `startTls()` more than once on a socket"])
      rfl rfl).1,
    upgraded_monotonic.2.2.1 ⟨some 9, some 9, some 9, false, true⟩
      CloseOutcome.resolves rfl⟩

/-- C5: `connect` never throws (every outcome yields a trace); the `connect`
notification appears exactly once on success and never on failure; a failure
emits exactly one error notification; and in the success trace `connect` is
emitted strictly after the `opened` await point. -/
theorem connect_emits_once_after_opened (ssl : Bool) (o : ConnectOutcome) :
    ((connectTrace ssl o).count .emitConnect =
      if o = .ok then 1 else 0) ∧
    (((connectTrace ssl o).filter isErrorNotif).length =
      if o = .ok then 0 else 1) ∧
    (connectTrace ssl ConnectOutcome.ok).indexOf .openedAwait <
      (connectTrace ssl ConnectOutcome.ok).indexOf .emitConnect := by
  refine ⟨?_, ?_, ?_⟩
  · cases o <;> simp [connectTrace, List.count_cons]
  · cases o <;> simp [connectTrace, isErrorNotif]
  · cases ssl <;> decide

/-- C6: when a read settles `done`, the hook clears the socket/reader/writer
references strictly before pushing the single end-of-stream marker, and a
subsequent `destroy` on the resulting state fires its callback immediately,
issuing no `close()` request on the transport. -/
theorem read_done_forgets_refs_then_destroy_is_immediate (s : CFState)
    (err : Option String) (co : CloseOutcome) :
    readHookActions .done = [.issueRead, .clearRefs, .pushNull] ∧
    (readHookActions ReadOutcome.done).indexOf .clearRefs <
      (readHookActions ReadOutcome.done).indexOf .pushNull ∧
    (readHookActions ReadOutcome.done).count .pushNull = 1 ∧
    (runReadHook s .done).cfSocket = none ∧
    (runReadHook s .done).cfReader = none ∧
    (runReadHook s .done).cfWriter = none ∧
    destroyHook (runReadHook s .done) err co = [.destroyCallback err] ∧
    (destroyHook (runReadHook s .done) err co).filter isCloseRequest = [] := by
  refine ⟨rfl, by decide, by decide, ?_, ?_, ?_, ?_, ?_⟩ <;>
    simp [runReadHook, readHookActions, applyAction, destroyHook,
      isCloseRequest]

/-- C7: along any sequence of read outcomes, every prefix of the pump trace
has at most one more `issue` than `settle` events — at most one read is in
flight — and each invocation of the read hook issues exactly one read. -/
theorem read_pump_single_flight (os : List ReadOutcome) (n : Nat)
    (o : ReadOutcome) :
    countEv .issue ((pumpTrace os).take n) ≤
      countEv .settle ((pumpTrace os).take n) + 1 ∧
    (readHookActions o).count .issueRead = 1 := by
  constructor
  · induction os generalizing n with
    | nil => simp [pumpTrace, countEv]
    | cons hd tl ih =>
      match n with
      | 0 => simp [countEv]
      | 1 => cases hd <;> simp [pumpTrace, countEv]
      | (m + 2) =>
        cases hd with
        | data c =>
          have hm := ih m
          simp [pumpTrace, List.take_succ_cons, countEv,
            List.count_cons] at hm ⊢
          omega
        | done =>
          simp [pumpTrace, countEv, List.count_cons]
        | error e =>
          simp [pumpTrace, countEv, List.count_cons]
  · cases o <;> simp [readHookActions, List.count_cons]

/-- C8: a zero-length chunk makes the write hook invoke its completion
callback successfully with no transport-writer interaction at all. -/
theorem write_empty_chunk_no_transport (data : List Nat) (o : WriterOutcome)
    (h : data.length = 0) :
    writeHookActions data o = [.writeCallback none] ∧
    ∀ c, Action.writerWrite c ∉ writeHookActions data o := by
  constructor
  · simp [writeHookActions, h]
  · intro c
    simp [writeHookActions, h]

/-- Witness for C8 on the empty chunk. -/
theorem write_empty_chunk_no_transport_witness :
    writeHookActions [] WriterOutcome.resolves = [.writeCallback none] :=
  (write_empty_chunk_no_transport [] WriterOutcome.resolves rfl).1

/-- C9: a non-empty chunk is forwarded to the writer; the outcome — success
or the underlying error — reaches only that write's completion callback, and
the hook neither destroys the adapter nor emits an error notification. -/
theorem write_failure_only_via_callback (data : List Nat) (o : WriterOutcome)
    (h : data.length ≠ 0) :
    writeHookActions data o =
      [.writerWrite data,
        .writeCallback
          (match o with | .resolves => none | .rejects e => some e)] ∧
    (writeHookActions data o).filter isErrorNotif = [] ∧
    (writeHookActions data o).filter isDestroyCall = [] := by
  cases o <;> simp [writeHookActions, h, isErrorNotif, isDestroyCall]

/-- Witness for C9 on a one-byte chunk whose write rejects. -/
theorem write_failure_only_via_callback_witness :
    writeHookActions [1] (WriterOutcome.rejects "boom") =
      [.writerWrite [1], .writeCallback (some "boom")] ∧
    (writeHookActions [1] (WriterOutcome.rejects "boom")).filter
      isErrorNotif = [] :=
  ⟨(write_failure_only_via_callback [1] (WriterOutcome.rejects "boom")
      (by decide)).1,
    (write_failure_only_via_callback [1] (WriterOutcome.rejects "boom")
      (by decide)).2.1⟩

/-- C10: with a transport still active, a rejecting `close()` routes its
rejection error — not the trigger error — into the destroy callback; the
trigger error is surfaced only when `close()` resolves. -/
theorem destroy_close_rejection_takes_precedence (s : CFState) (sock : Nat)
    (err : Option String) (e : String) (hs : s.cfSocket = some sock) :
    destroyHook s err (.rejects e) =
      [.closeRequest, .destroyCallback (some e)] ∧
    destroyHook s err .resolves = [.closeRequest, .destroyCallback err] := by
  simp [destroyHook, hs]

/-- Witness for C10 with a trigger error and a distinct close-failure. -/
theorem destroy_close_rejection_takes_precedence_witness :
    destroyHook ⟨some 0, none, none, false, false⟩ (some "trigger")
        (CloseOutcome.rejects "closefail") =
      [.closeRequest, .destroyCallback (some "closefail")] :=
  (destroy_close_rejection_takes_precedence ⟨some 0, none, none, false, false⟩
    0 (some "trigger") "closefail" rfl).1

end PgCloudflare
